import Mathlib

/-!
Verification development for the win-rate analytics engine of the
salesforce-win-rate-analyzer repository.

The JavaScript sources are shallowly embedded:

* JS numbers are modelled as rationals (`ℚ`); floating rounding is out of
  scope of the claims checked here, which all hold exactly over `ℚ`.
* Calls into numeric libraries that leave `ℚ` (`Math.sqrt`, `Math.exp`,
  `Math.log`, `jStat.studentt.*`, `jStat.centralF.*`) are modelled by
  explicit function parameters, used exactly where the source calls them;
  no theorem below depends on the values those functions return.
* JS dynamic values appearing in records are modelled by the `JsValue`
  inductive; a missing object property is `JsValue.undefV`, as in JS.
* Fallible code (functions that can `throw`) returns `Except JsError α`.
-/

namespace WinRate

/-- Dynamic JS value as stored in an opportunity record / options object. -/
inductive JsValue where
  | str (s : String)
  | num (q : ℚ)
  | boolV (b : Bool)
  | nullV
  | undefV
deriving DecidableEq, Repr

/-- Truthiness of a JS value (used by `opp.IsWon ? ... : ...` and filters). -/
def JsValue.truthy : JsValue → Bool
  | .str s => s ≠ ""
  | .num q => q ≠ 0
  | .boolV b => b
  | .nullV => false
  | .undefV => false

/-- Partial model of the JS `ToNumber` conversion on strings: integer
literals (with optional sign) convert; the empty string converts to 0;
anything else is `none` (NaN).  Adequate for the integer-valued keys the
claims exercise; no theorem below depends on the unparsed cases. -/
def strToNum (s : String) : Option ℚ :=
  if s = "" then some 0
  else match s.toInt? with
    | some n => some (n : ℚ)
    | none => none

/-- JS loose equality `==` restricted to the value shapes that occur in
records: same-type comparison is structural, `null == undefined`, and a
number compares to a string through `ToNumber`.  Booleans coerce to
numbers first, as in JS. -/
def JsValue.looseEq : JsValue → JsValue → Bool
  | .nullV, .nullV => true
  | .nullV, .undefV => true
  | .undefV, .nullV => true
  | .undefV, .undefV => true
  | .nullV, _ => false
  | .undefV, _ => false
  | _, .nullV => false
  | _, .undefV => false
  | .str a, .str b => a = b
  | .num a, .num b => a = b
  | .boolV a, .boolV b => a = b
  | .num a, .str b => (strToNum b).elim false (fun q => a = q)
  | .str a, .num b => (strToNum a).elim false (fun q => q = b)
  | .boolV a, .num b => (if a then (1 : ℚ) else 0) = b
  | .num a, .boolV b => a = (if b then (1 : ℚ) else 0)
  | .boolV a, .str b => (strToNum b).elim false (fun q => (if a then (1 : ℚ) else 0) = q)
  | .str a, .boolV b => (strToNum a).elim false (fun q => q = (if b then (1 : ℚ) else 0))

/-- String form of a value when it is used as a JS object key (object keys
are always strings; `Object.entries` returns the stringified key).  The
numeric case renders integers the way JS does; non-integer rationals keep
a readable rendering, which no claim exercises. -/
def JsValue.toKeyString : JsValue → String
  | .str s => s
  | .num q => if q.den = 1 then toString q.num else toString q
  | .boolV b => if b then "true" else "false"
  | .nullV => "null"
  | .undefV => "undefined"

/-- An opportunity record: a JS object, i.e. an ordered association list
from property name to value.  Property access on an absent key yields
`undefV`, as in JS. -/
def Rec := List (String × JsValue)
deriving DecidableEq, Repr

/-- Index-aware map, used to model `array.map((x, i) => ...)`: a structural
recursion that evaluates well. -/
def idxMapFrom (f : ℕ → α → β) : ℕ → List α → List β
  | _, [] => []
  | i, a :: l => f i a :: idxMapFrom f (i + 1) l

/-- Model of `array.map((x, i) => ...)`. -/
def idxMap (f : ℕ → α → β) (l : List α) : List β := idxMapFrom f 0 l

/-- Model of `opp[field]`: first binding wins, absent keys give `undefV`. -/
def Rec.getField (r : Rec) (field : String) : JsValue :=
  match r.find? (fun kv => kv.1 = field) with
  | some kv => kv.2
  | none => .undefV

/-- Model of `opp.IsWon` used as a condition (truthiness). -/
def Rec.isWon (r : Rec) : Bool := (r.getField "IsWon").truthy

/-! ## LookupTableGenerator: `generateWinRateLookupTable`
(backend analytics service, src/unnamed/part_008 lines 232-331). -/

/-- Distinct values of `opportunities.map (opp => opp[dim])` in first-seen
order, as produced by `[...new Set(...)]`. -/
def distinctValues (opportunities : List Rec) (dim : String) : List JsValue :=
  (opportunities.map (fun o => o.getField dim)).foldl
    (fun acc v => if v ∈ acc then acc else acc ++ [v]) []

/-- Occurrence count of a key among the (stringified) values of a dimension,
modelling the `valueCounts` object. -/
def valueCount (opportunities : List Rec) (dim : String) (key : String) : ℕ :=
  (opportunities.filter (fun o => (o.getField dim).toKeyString = key)).length

/-- Largest `v` with `v ^ k ≤ m`: exact integer model of
`Math.floor(Math.pow(maxCombinations, 1/numDimensions))`.  (Float `pow` can
be one off at exact powers; no claim below depends on the cut-off value.) -/
def natRootFloor (m k : ℕ) : ℕ :=
  ((List.range (m + 2)).filter (fun v => v ^ k ≤ m)).foldl max 0

/-- The per-dimension value list used for enumeration after the frequency
pruning of lines 246-268: stringified keys sorted by descending frequency,
truncated to `max 2 (floor (maxCombinations ^ (1/numDims)))`.  The JS sort
comparator is `b[1] - a[1]`; a stable insertion into a descending-by-count
list models it. -/
def prunedValues (opportunities : List Rec) (dims : List String)
    (maxCombinations : ℕ) (dim : String) : List JsValue :=
  let keys := ((distinctValues opportunities dim).map JsValue.toKeyString)
  let sorted := keys.foldl
    (fun acc k =>
      let c := valueCount opportunities dim k
      let before := acc.takeWhile (fun kk => c ≤ valueCount opportunities dim kk)
      before ++ [k] ++ acc.drop before.length) []
  let valueLimit := max 2 (natRootFloor maxCombinations dims.length)
  (sorted.take valueLimit).map JsValue.str

/-- Value domain per dimension actually enumerated: the raw distinct values,
or the pruned, stringified most-frequent values when the full product
exceeds `maxCombinations`. -/
def selectedDimensionValues (opportunities : List Rec) (dims : List String)
    (maxCombinations : ℕ) (dim : String) : List JsValue :=
  let totalCombinations :=
    (dims.map (fun d => (distinctValues opportunities d).length)).prod
  if totalCombinations > maxCombinations then
    prunedValues opportunities dims maxCombinations dim
  else
    distinctValues opportunities dim

/-- All dimension-value combinations, in the order generated by the
recursive `generateCombinations`. -/
def allCombinations (valuesOf : String → List JsValue) :
    List String → List (List (String × JsValue))
  | [] => [[]]
  | dim :: rest =>
      ((valuesOf dim).map (fun v =>
        (allCombinations valuesOf rest).map (fun combo => (dim, v) :: combo))).flatten

/-- Records matching a combination under JS loose equality
(`opp[dim] == value`). -/
def matchingOpps (opportunities : List Rec)
    (combo : List (String × JsValue)) : List Rec :=
  opportunities.filter (fun o =>
    combo.all (fun dv => (o.getField dv.1).looseEq dv.2))

/-- Number of won records among those matching a combination. -/
def winsAmong (opportunities : List Rec)
    (combo : List (String × JsValue)) : ℕ :=
  ((matchingOpps opportunities combo).filter Rec.isWon).length

/-- One row of the lookup table.  The source spreads the combination keys
into the cell object; here the combination is kept in a `combo` field. -/
structure LookupCell where
  combo : List (String × JsValue)
  winRate : ℚ
  sampleSize : ℕ
  confidenceInterval : Option (ℚ × ℚ)
  isStatisticallySignificant : Bool
deriving DecidableEq, Repr

/-- Cell computation of lines 276-304.  `sqrtQ` models `Math.sqrt`. -/
def mkLookupCell (sqrtQ : ℚ → ℚ) (opportunities : List Rec)
    (combo : List (String × JsValue)) : LookupCell :=
  let wins := winsAmong opportunities combo
  let total := (matchingOpps opportunities combo).length
  let winRate : ℚ := if total > 0 then ((wins : ℚ) / (total : ℚ)) * 100 else 0
  let confidenceInterval : Option (ℚ × ℚ) :=
    if total > 0 then
      let z : ℚ := 49/25
      let err := z * sqrtQ ((winRate/100 * (1 - winRate/100)) / (total : ℚ))
      some (max 0 (winRate - err * 100), min 100 (winRate + err * 100))
    else none
  { combo := combo
    winRate := winRate
    sampleSize := total
    confidenceInterval := confidenceInterval
    isStatisticallySignificant := total ≥ 10 }

/-- Result shape of `generateWinRateLookupTable`. -/
structure LookupTableResult where
  lookupTable : List LookupCell
  dimensions : List String
  totalCombinations : ℕ
deriving DecidableEq, Repr

/-- Embedding of `generateWinRateLookupTable(opportunities, dimensions,
maxCombinations)` (part_008 lines 232-331).  This function performs no
preprocessing and is reachable; its body cannot throw. -/
def generateWinRateLookupTable (sqrtQ : ℚ → ℚ) (opportunities : List Rec)
    (dims : List String) (maxCombinations : ℕ) : LookupTableResult :=
  let combos := allCombinations
    (selectedDimensionValues opportunities dims maxCombinations) dims
  let table := combos.map (mkLookupCell sqrtQ opportunities)
  { lookupTable := table
    dimensions := dims
    totalCombinations := table.length }

/-! ## Errors

JS exceptions are modelled by `JsError`.  `invalidKError` is the error class
named by the specification for out-of-range cluster counts; it is part of
the vocabulary so that theorems can state which errors are (not) raised,
and no embedded definition ever constructs it. -/

/-- Error taxonomy for the embedded code. -/
inductive JsError where
  | typeError (msg : String)
  | runtimeError (msg : String)
  | invalidKError (msg : String)
deriving DecidableEq, Repr

/-- Message text of an error (`error.message`). -/
def JsError.message : JsError → String
  | .typeError m => m
  | .runtimeError m => m
  | .invalidKError m => m

/-- Model of the `catch (error) { throw new Error(prefix + error.message) }`
 wrappers of the backend service functions. -/
def wrapCatch (pre : String) (e : Except JsError α) : Except JsError α :=
  e.mapError (fun err => .runtimeError (pre ++ ": " ++ err.message))

/-! ## Data-processing utilities module (src/unnamed/part_007)

`module.exports` of `dataProcessingUtils.js`, lines 441-450: exactly these
eight names are exported. -/

/-- Exported names of the data-processing utilities module. -/
def dataProcessingUtilsExports : List String :=
  ["handleMissingValues", "normalizeNumericValues", "encodeCategoricalVariables",
   "createDerivedFeatures", "balanceWinLossData", "splitTrainingTestingData",
   "handleOutliers", "aggregateByDimensions"]

/-- Destructuring `const { name } = require(module)` gives `undefined` when
the export object has no such key; calling that binding then throws
`TypeError: name is not a function`.  `importedCall` models the call
through such a binding. -/
def importedCall (exports : List String) (name : String)
    (body : Except JsError α) : Except JsError α :=
  if name ∈ exports then body
  else .error (.typeError (name ++ " is not a function"))

/-! ### `handleMissingValues` (part_007 lines 14-41) -/

/-- Options object of `handleMissingValues`; the defaults mirror the
destructuring defaults `removeIncomplete = false, defaultValues = {}`. -/
structure MissingValueOptions where
  removeIncomplete : Bool := false
  defaultValues : List (String × JsValue) := []

/-- Lookup in the `defaultValues` option object; an absent key is
`undefined`. -/
def defaultFor (defaultValues : List (String × JsValue)) (key : String) : JsValue :=
  match defaultValues.find? (fun kv => kv.1 = key) with
  | some kv => kv.2
  | none => .undefV

/-- Embedding of `handleMissingValues(data, options)`.  The `removeIncomplete`
branch drops records having any `null`/`undefined` value; the other branch
maps every record, replacing a missing value by `defaultValues[key]` when
that is not `undefined` and by `null` otherwise. -/
def handleMissingValues (data : List Rec) (options : MissingValueOptions) : List Rec :=
  if options.removeIncomplete then
    data.filter (fun r => r.all (fun kv => kv.2 ≠ .nullV ∧ kv.2 ≠ .undefV))
  else
    data.map (fun r => r.map (fun kv =>
      if kv.2 = .nullV ∨ kv.2 = .undefV then
        (kv.1,
          if defaultFor options.defaultValues kv.1 ≠ .undefV then
            defaultFor options.defaultValues kv.1
          else .nullV)
      else kv))

/-! ## Preprocessing (absent from the repository)

Both backend services import `preprocessData` from the utilities module,
but part_007 exports no such function (see `dataProcessingUtilsExports`),
so the binding is `undefined` and every call through it throws.  For the
unreachable success branch, and for reasoning about stored `EncodingInfo`,
the preprocessing step is modelled from the spec. -/

/-- Encoding map: categorical dimension name to a map from (stringified)
category value to numeric code. -/
def EncodingInfo := List (String × List (String × ℚ))

/-- Modelled from the spec: missing `preprocessData`.  Spec section 4.1:
categorical dimensions are encoded as integer label codes derived from
first-seen order of distinct values; the resulting code map is the
EncodingInfo reused for later scoring.  Codes are assigned 0, 1, 2, ... in
first-seen order, matching the 0-based `indexOf` label encoding that
part_007 itself uses for its `label` encoding type. -/
def buildEncodingForDim (records : List Rec) (dim : String) : List (String × ℚ) :=
  ((records.map (fun r => (r.getField dim).toKeyString)).foldl
    (fun acc k => if acc.any (fun kc => kc.1 = k) then acc
                  else acc ++ [(k, (acc.length : ℚ))]) [])

/-- Lookup of a category code in an `EncodingInfo`. -/
def encodingLookup (enc : EncodingInfo) (dim : String) : Option (List (String × ℚ)) :=
  (enc.find? (fun kv => kv.1 = dim)).map (fun kv => kv.2)

/-- Numeric view of a record value fed to arithmetic: numbers pass through,
anything else is modelled as 0 (the claims never exercise the non-numeric
arithmetic paths, where JS would produce NaN). -/
def JsValue.toNumD : JsValue → ℚ
  | .num q => q
  | .boolV b => if b then 1 else 0
  | _ => 0

/-- Output shape of the (missing) preprocessing step. -/
structure PreprocessedData where
  X : List (List ℚ)
  y : List ℚ
  encodingInfo : EncodingInfo

/-- Modelled from the spec: missing `preprocessData(opportunities,
dimensions, targetVariable)`.  Spec section 4.1: converts records into a
numeric feature matrix (categoricals label-encoded in first-seen order,
numerics passed through, missing values defaulting to 0) and a 0/1 target
vector.  This definition is only ever reached through `importedCall`,
whose guard is false; no theorem depends on its values. -/
def preprocessDataModel (opportunities : List Rec) (dims : List String)
    (targetVariable : String) : PreprocessedData :=
  let enc : EncodingInfo := dims.map (fun d => (d, buildEncodingForDim opportunities d))
  { X := opportunities.map (fun r => dims.map (fun d =>
      match r.getField d with
      | .num q => q
      | v => match encodingLookup enc d with
        | some m => ((m.find? (fun kc => kc.1 = v.toKeyString)).map (fun kc => kc.2)).getD 0
        | none => v.toNumD))
    y := opportunities.map (fun r => if (r.getField targetVariable).truthy then 1 else 0)
    encodingInfo := enc }

/-! ## Rational linear algebra

Models of the `mathjs` / `jStat` matrix calls (`transpose`, `multiply`,
`inv`, `diag`) used by the regression code, as exact rational linear
algebra.  The inverse is a pivot-free Gauss-Jordan elimination, adequate
for the well-conditioned Gram matrices the concrete evaluations use; no
theorem below relies on its behaviour on singular input. -/

/-- Dot product of two rational vectors (`dotProduct` helper of the
prediction worker, and the row-by-column step of matrix products). -/
def dotQ (a b : List ℚ) : ℚ := ((a.zip b).map (fun p => p.1 * p.2)).sum

/-- Matrix transpose. -/
def transposeQ (m : List (List ℚ)) : List (List ℚ) :=
  (List.range ((m.headD []).length)).map (fun j => m.map (fun row => row.getD j 0))

/-- Matrix-matrix product. -/
def matMulQ (a b : List (List ℚ)) : List (List ℚ) :=
  a.map (fun row => (transposeQ b).map (fun col => dotQ row col))

/-- Matrix-vector product. -/
def matVecQ (a : List (List ℚ)) (v : List ℚ) : List ℚ :=
  a.map (fun row => dotQ row v)

/-- Main diagonal of a square matrix. -/
def diagQ (m : List (List ℚ)) : List ℚ :=
  idxMap (fun i row => row.getD i 0) m

/-- Gauss-Jordan inverse without row exchanges. -/
def matInvQ (a : List (List ℚ)) : List (List ℚ) :=
  let n := a.length
  let aug := idxMap (fun i row =>
    row ++ (List.range n).map (fun j => if i = j then (1 : ℚ) else 0)) a
  let elim := (List.range n).foldl (fun rows c =>
    let pivotRow := rows.getD c []
    let pv := pivotRow.getD c 0
    let norm := if pv = 0 then pivotRow else pivotRow.map (fun x => x / pv)
    idxMap (fun i row =>
      if i = c then norm
      else row.zipWith (fun x p => x - row.getD c 0 * p) norm) rows) aug
  elim.map (fun row => row.drop n)

/-- Mean of a list of rationals (`math.mean` / `jStat.mean`). -/
def meanQ (l : List ℚ) : ℚ := l.sum / (l.length : ℚ)

/-- Sum of squares of a list of rationals. -/
def sumSqQ (l : List ℚ) : ℚ := (l.map (fun x => x * x)).sum

/-! ## Backend analytics service (src/unnamed/part_008)

Each service function first calls `preprocessData` imported from the
utilities module.  The import is resolved against
`dataProcessingUtilsExports` via `importedCall`; since the name is absent,
every call errors in that step and the remaining body is unreachable.  The
bodies are embedded as separate `...Core` functions of the preprocessed
data, exactly as the source computes them. -/

/-- Result shape of the backend multivariate regression (lines 76-84). -/
structure RegressionAnalysis where
  beta : List ℚ
  rSquared : ℚ
  adjustedRSquared : ℚ
  observations : ℕ
  dimensions : ℕ
  se : List ℚ
  tValues : List ℚ
  pValues : List ℚ
  tCritical : ℚ
deriving Repr

/-- Embedding of the body of `performMultivariateRegression` after
preprocessing (part_008 lines 22-84): normal equations, `R²`,
`p = dimensions.length + 1` (the comment says "+1 for intercept"),
`σ² = RSS/(n−p)` and `adjustedRSquared = 1 − (1−R²)(n−1)/(n−p−1)` with that
`p`.  `sqrtQ` models `Math.sqrt`; `tCdf`/`tInv` model `jStat.studentt`. -/
def analyticsRegressionCore (sqrtQ : ℚ → ℚ) (tCdf : ℚ → ℚ → ℚ) (tInv : ℚ → ℚ → ℚ)
    (X : List (List ℚ)) (y : List ℚ) (dims : List String) : RegressionAnalysis :=
  let Xwith1s := X.map (fun row => 1 :: row)
  let Xt := transposeQ Xwith1s
  let XtX := matMulQ Xt Xwith1s
  let XtX_inv := matInvQ XtX
  let Xty := matVecQ Xt y
  let beta := matVecQ XtX_inv Xty
  let yPred := matVecQ Xwith1s beta
  let residuals := (y.zip yPred).map (fun p => p.1 - p.2)
  let TSS := (y.map (fun v => (v - meanQ y) * (v - meanQ y))).sum
  let RSS := sumSqQ residuals
  let rSquared := 1 - RSS / TSS
  let n := y.length
  let p := dims.length + 1
  let sigma2 := RSS / ((n : ℚ) - (p : ℚ))
  let se := (diagQ XtX_inv).map (fun v => sqrtQ (v * sigma2))
  let tValues := idxMap (fun i b => b / se.getD i 0) beta
  let pValues := tValues.map (fun t => 2 * (1 - tCdf |t| ((n : ℚ) - (p : ℚ))))
  let tCritical := tInv (975/1000) ((n : ℚ) - (p : ℚ))
  { beta := beta
    rSquared := rSquared
    adjustedRSquared := 1 - ((1 - rSquared) * ((n : ℚ) - 1) / ((n : ℚ) - (p : ℚ) - 1))
    observations := n
    dimensions := p - 1
    se := se
    tValues := tValues
    pValues := pValues
    tCritical := tCritical }

/-- Embedding of `performMultivariateRegression(opportunities, dimensions,
targetVariable)` (part_008 lines 17-89): the `preprocessData` call through
the undefined import binding throws first, and the `catch` rephrases the
message. -/
def performMultivariateRegression (sqrtQ : ℚ → ℚ) (tCdf : ℚ → ℚ → ℚ)
    (tInv : ℚ → ℚ → ℚ) (opportunities : List Rec) (dims : List String)
    (targetVariable : String) : Except JsError RegressionAnalysis :=
  wrapCatch "Failed to perform regression analysis"
    (importedCall dataProcessingUtilsExports "preprocessData"
      (let d := preprocessDataModel opportunities dims targetVariable
       .ok (analyticsRegressionCore sqrtQ tCdf tInv d.X d.y dims)))

/-! ### K-means core of `performDimensionClustering` (part_008 lines 104-163) -/

/-- Euclidean distance (`math.distance`), through the `Math.sqrt` model. -/
def distQ (sqrtQ : ℚ → ℚ) (p q : List ℚ) : ℚ :=
  sqrtQ (sumSqQ ((p.zip q).map (fun c => c.1 - c.2)))

/-- Index of the nearest centroid of a point: the fold of lines 124-134.
`minDistance` starts at `Infinity`, modelled by `none`, so the first
centroid is always taken; afterwards a strict `<` comparison decides, so
the first minimum wins. -/
def closestCentroidIdx (sqrtQ : ℚ → ℚ) (point : List ℚ)
    (centroids : List (List ℚ)) : ℕ :=
  (centroids.foldl (fun st c =>
      let d := distQ sqrtQ point c
      match st with
      | (none, _, idx) => (some d, idx, idx + 1)
      | (some b, bestIdx, idx) =>
        if d < b then (some d, idx, idx + 1) else (some b, bestIdx, idx + 1))
    ((none : Option ℚ), 0, 0)).2.1

/-- Assignment step: clusters[i] collects the points whose nearest centroid
is i (each entry keeps the point and its original index, as the source
does). -/
def assignClusters (sqrtQ : ℚ → ℚ) (features : List (List ℚ))
    (centroids : List (List ℚ)) : List (List (List ℚ × ℕ)) :=
  (List.range centroids.length).map (fun i =>
    (idxMap (fun idx pt => (pt, idx)) features).filter
      (fun p => closestCentroidIdx sqrtQ p.1 centroids = i))

/-- Coordinate-wise mean of the points of a cluster (lines 147-150):
dimension count taken from the first point. -/
def meanPoint (pts : List (List ℚ)) : List ℚ :=
  (List.range (pts.headD []).length).map (fun d => meanQ (pts.map (fun p => p.getD d 0)))

/-- Centroid update of lines 144-151: a non-empty cluster gets the mean of
its members; an empty cluster gets `centroids[0]` — the first centroid,
whatever the index of the empty cluster. -/
def updateCentroids (centroids : List (List ℚ))
    (clusters : List (List (List ℚ × ℕ))) : List (List ℚ) :=
  clusters.map (fun cluster =>
    if cluster.length = 0 then centroids.getD 0 []
    else meanPoint (cluster.map (fun it => it.1)))

/-- One full state of the k-means loop. -/
structure KmeansState where
  centroids : List (List ℚ)
  clusters : List (List (List ℚ × ℕ))
  iterations : ℕ
  converged : Bool
deriving Repr

/-- The `while (!converged && iterations < MAX_ITERATIONS)` loop of lines
120-163, by fuel recursion (fuel = remaining iterations). -/
def kmeansLoop (sqrtQ : ℚ → ℚ) (features : List (List ℚ)) :
    ℕ → KmeansState → KmeansState
  | 0, st => st
  | fuel + 1, st =>
    if st.converged then st
    else
      let clusters := assignClusters sqrtQ features st.centroids
      let newCentroids := updateCentroids st.centroids clusters
      let centroidShift :=
        ((st.centroids.zip newCentroids).map (fun c => distQ sqrtQ c.1 c.2)).sum
      kmeansLoop sqrtQ features fuel
        { centroids := newCentroids
          clusters := clusters
          iterations := st.iterations + 1
          converged := centroidShift < 1/1000 }

/-- Embedding of the k-means core of `performDimensionClustering` (lines
104-163): centroids are initialised by k random draws from the feature
rows — `rand i` models the i-th `Math.floor(Math.random() *
features.length)` — and the loop runs with `MAX_ITERATIONS = 100`. -/
def kmeansCore (sqrtQ : ℚ → ℚ) (rand : ℕ → ℕ) (features : List (List ℚ))
    (k : ℕ) : KmeansState :=
  let centroids := (List.range k).map (fun i =>
    features.getD (rand i % max 1 features.length) [])
  kmeansLoop sqrtQ features 100
    { centroids := centroids, clusters := [], iterations := 0, converged := false }

/-- Embedding of `performDimensionClustering(opportunities, dimensions, k)`
(part_008 lines 98-223): the `preprocessData` call through the undefined
binding of the import throws first — for every `k` — and the `catch`
rephrases the message.  The dead success branch runs the k-means core on the preprocessed
features. -/
def performDimensionClustering (sqrtQ : ℚ → ℚ) (rand : ℕ → ℕ)
    (opportunities : List Rec) (dims : List String) (k : ℕ) :
    Except JsError KmeansState :=
  wrapCatch "Failed to perform dimension clustering"
    (importedCall dataProcessingUtilsExports "preprocessData"
      (let d := preprocessDataModel opportunities dims ""
       .ok (kmeansCore sqrtQ rand d.X k)))

/-! ## Regression web worker (src/unnamed/part_000, first file)

The worker computes over `jStat`; the distribution evaluations
(`jStat.studentt.cdf/inv`, `jStat.centralF.cdf`) and `Math.sqrt` are
explicit parameters, bundled in `StatOracles`. -/

/-- Parameters modelling the numeric library calls that leave `ℚ`. -/
structure StatOracles where
  sqrt : ℚ → ℚ
  tCdf : ℚ → ℚ → ℚ
  tInv : ℚ → ℚ → ℚ
  fCdf : ℚ → ℚ → ℚ → ℚ

/-- Result of the worker `performMultivariateRegression` (lines 60-147). -/
structure WorkerRegression where
  coefficients : List ℚ
  rSquared : ℚ
  adjustedRSquared : ℚ
  standardError : ℚ
  tStats : List ℚ
  pValues : List ℚ
  confidenceIntervals : List (ℚ × ℚ)
  predictions : List ℚ
deriving Repr

/-- Embedding of the worker `performMultivariateRegression({X, y})`: input
validation (lines 63-66), then normal equations with
`rSquared = SSR/SST`, `p = X[0].length` (predictors excluding the
intercept) and `adjustedRSquared = 1 − (1−R²)(n−1)/(n−p−1)`. -/
def workerRegression (o : StatOracles) (X : Option (List (List ℚ)))
    (y : Option (List ℚ)) : Except JsError WorkerRegression :=
  match X, y with
  | some X, some y =>
    if X.length = 0 ∨ y.length = 0 ∨ X.length ≠ y.length then
      .error (.runtimeError "Invalid input data for regression analysis")
    else
      let designMatrix := X.map (fun row => 1 :: row)
      let Xt := transposeQ designMatrix
      let XtX := matMulQ Xt designMatrix
      let XtX_inv := matInvQ XtX
      let Xty := matVecQ Xt y
      let coefficients := matVecQ XtX_inv Xty
      let predictions := designMatrix.map (fun row => dotQ row coefficients)
      let yMean := meanQ y
      let SST := (y.map (fun v => (v - yMean) * (v - yMean))).sum
      let SSR := (predictions.map (fun p => (p - yMean) * (p - yMean))).sum
      let SSE := ((predictions.zip y).map (fun p => (p.2 - p.1) * (p.2 - p.1))).sum
      let rSquared := SSR / SST
      let n := y.length
      let p := (X.headD []).length
      let adjustedRSquared :=
        1 - ((1 - rSquared) * ((n : ℚ) - 1) / ((n : ℚ) - (p : ℚ) - 1))
      let standardError := o.sqrt (SSE / ((n : ℚ) - (p : ℚ) - 1))
      let coefficientStdErrors :=
        (diagQ XtX_inv).map (fun v => o.sqrt (v * standardError * standardError))
      let tStats := idxMap (fun i c => c / coefficientStdErrors.getD i 0) coefficients
      let pValues := tStats.map (fun t => 2 * (1 - o.tCdf |t| ((n : ℚ) - (p : ℚ) - 1)))
      let tCritical := o.tInv (975/1000) ((n : ℚ) - (p : ℚ) - 1)
      let confidenceIntervals := idxMap (fun i c =>
        (c - tCritical * coefficientStdErrors.getD i 0,
         c + tCritical * coefficientStdErrors.getD i 0)) coefficients
      .ok { coefficients := coefficients
            rSquared := rSquared
            adjustedRSquared := adjustedRSquared
            standardError := standardError
            tStats := tStats
            pValues := pValues
            confidenceIntervals := confidenceIntervals
            predictions := predictions }
  | _, _ => .error (.runtimeError "Invalid input data for regression analysis")

/-- Payload of a regression-worker request: the union of the fields the
four actions read, each optional because a JS payload may omit any of
them. -/
structure RegPayload where
  X : Option (List (List ℚ)) := none
  y : Option (List ℚ) := none
  variableNames : Option (List String) := none
  coefficients : Option (List ℚ) := none
  standardErrors : Option (List ℚ) := none
  sampleSize : Option ℚ := none
  numPredictors : Option ℚ := none
  confidenceLevel : ℚ := 95/100
  regressionRSquared : Option ℚ := none
  regressionCoefficients : Option (List ℚ) := none
  regressionStandardError : Option ℚ := none

/-- Result of `calculateRegressionCoefficients` (lines 154-180). -/
structure NamedCoefficients where
  names : List String
  coefficients : List ℚ
  rSquared : ℚ
  adjustedRSquared : ℚ
deriving Repr

/-- Embedding of `calculateRegressionCoefficients(data)`: reruns the
regression and annotates coefficients with variable names (`Intercept`
first; a missing name is the JS `undefined`). -/
def calculateRegressionCoefficients (o : StatOracles) (d : RegPayload) :
    Except JsError NamedCoefficients :=
  (workerRegression o d.X d.y).map (fun reg =>
    { names := idxMap (fun i _ =>
        if i = 0 then "Intercept"
        else ((d.variableNames.getD []).getD (i - 1) "undefined")) reg.coefficients
      coefficients := reg.coefficients
      rSquared := reg.rSquared
      adjustedRSquared := reg.adjustedRSquared })

/-- Embedding of `calculateConfidenceIntervals(data)` (lines 187-203):
mapping over an `undefined` coefficients array throws a `TypeError`. -/
def calculateConfidenceIntervals (o : StatOracles) (d : RegPayload) :
    Except JsError (List (ℚ × ℚ × ℚ)) :=
  match d.coefficients, d.standardErrors, d.sampleSize, d.numPredictors with
  | some coefficients, some standardErrors, some sampleSize, some numPredictors =>
    let df := sampleSize - numPredictors - 1
    let tCritical := o.tInv (1 - (1 - d.confidenceLevel) / 2) df
    .ok (idxMap (fun i c =>
      (c - tCritical * standardErrors.getD i 0,
       c + tCritical * standardErrors.getD i 0, c)) coefficients)
  | _, _, _, _ =>
    .error (.typeError "Cannot read properties of undefined")

/-- Result of `calculateStatisticalSignificance` (lines 210-234). -/
structure SignificanceResult where
  fStat : ℚ
  fPValue : ℚ
  isModelSignificant : Bool
deriving Repr

/-- Embedding of `calculateStatisticalSignificance(data)`: F statistic from
the regression R² with `df1 = p`, `df2 = n − p − 1`. -/
def calculateStatisticalSignificance (o : StatOracles) (d : RegPayload) :
    Except JsError SignificanceResult :=
  match d.regressionRSquared, d.regressionCoefficients, d.sampleSize with
  | some rSquared, some coefficients, some sampleSize =>
    let p : ℚ := (coefficients.length : ℚ) - 1
    let df2 := sampleSize - p - 1
    let fStat := (rSquared / p) / ((1 - rSquared) / df2)
    let fPValue := 1 - o.fCdf fStat p df2
    .ok { fStat := fStat, fPValue := fPValue,
          isModelSignificant := fPValue < 5/100 }
  | _, _, _ => .error (.typeError "Cannot read properties of undefined")

/-- Operation-specific success payloads of the regression worker. -/
inductive RegResult where
  | regression (r : WorkerRegression)
  | named (r : NamedCoefficients)
  | intervals (r : List (ℚ × ℚ × ℚ))
  | significance (r : SignificanceResult)

/-- Dispatch of the `switch (action)` (lines 16-35): each case calls the
corresponding function; an unknown action throws. -/
def dispatchRegAction (o : StatOracles) (action : String) (d : RegPayload) :
    Except JsError RegResult :=
  if action = "multivariate_regression" then
    (workerRegression o d.X d.y).map .regression
  else if action = "calculate_coefficients" then
    (calculateRegressionCoefficients o d).map .named
  else if action = "confidence_intervals" then
    (calculateConfidenceIntervals o d).map .intervals
  else if action = "statistical_significance" then
    (calculateStatisticalSignificance o d).map .significance
  else .error (.runtimeError ("Unknown action: " ++ action))

/-- A message posted back to the main thread by `self.postMessage`. -/
structure WorkerResponse where
  success : Bool
  id : ℚ
  result : Option RegResult
  error : Option String

/-- Embedding of the worker `self.onmessage` handler (lines 10-51): the
dispatched operation runs inside `try`; a normal return posts one success
message, a thrown error is caught and posts one failure message.  The
returned list collects every `postMessage` call the handler performs. -/
def onRegressionMessage (o : StatOracles) (action : String) (id : ℚ)
    (d : RegPayload) : List WorkerResponse :=
  match dispatchRegAction o action d with
  | .ok result =>
    [{ success := true, id := id, result := some result, error := none }]
  | .error e =>
    [{ success := false, id := id, result := none, error := some e.message }]

/-! ## Prediction web worker (src/unnamed/part_000, second file) -/

/-- Training options with the defaults of line 301. -/
structure TrainOptions where
  maxIterations : ℕ := 100
  learningRate : ℚ := 1/10
  regularization : ℚ := 1/100

/-- Sigmoid through the `Math.exp` model: `1 / (1 + exp(−z))`. -/
def sigmoidQ (expQ : ℚ → ℚ) (z : ℚ) : ℚ := 1 / (1 + expQ (-z))

/-- L2-regularized mean gradient of lines 329-342 (bias component not
regularized). -/
def logisticGradient (expQ : ℚ → ℚ) (XWithBias : List (List ℚ)) (y : List ℚ)
    (weights : List ℚ) (regularization : ℚ) : List ℚ :=
  let predictions := XWithBias.map (fun row => sigmoidQ expQ (dotQ row weights))
  let errors := (predictions.zip y).map (fun p => p.1 - p.2)
  idxMap (fun j wj =>
    (((errors.zip XWithBias).map (fun p => p.1 * p.2.getD j 0)).sum +
      (if j > 0 then regularization * wj else 0)) / (XWithBias.length : ℚ)) weights

/-- Cross-entropy cost with `1e-10` log guards and L2 penalty
(`calculateLogisticCost`, lines 666-684).  `logQ` models `Math.log`. -/
def logisticCost (expQ logQ : ℚ → ℚ) (XWithBias : List (List ℚ)) (y : List ℚ)
    (weights : List ℚ) (lambda : ℚ) : ℚ :=
  let m : ℚ := (y.length : ℚ)
  let predictions := XWithBias.map (fun row => sigmoidQ expQ (dotQ row weights))
  let ce := ((predictions.zip y).map (fun p =>
    -p.2 * logQ (p.1 + 1/10000000000) -
      (1 - p.2) * logQ (1 - p.1 + 1/10000000000))).sum / m
  ce + lambda / (2 * m) * sumSqQ (weights.drop 1)

/-- State accumulated across training iterations.  `deltaSqHistory` is
ghost instrumentation: it records, for every pass, the squared Euclidean
norm `Σ (w_new − w_old)²` that the source computes (under `Math.sqrt`)
inside its convergence check; it does not influence the computation. -/
structure TrainState where
  weights : List ℚ
  iterations : ℕ
  converged : Bool
  costHistory : List ℚ
  deltaSqHistory : List ℚ
deriving Repr

/-- Weight update of one gradient-descent pass (lines 344-348). -/
def trainStepWeights (expQ : ℚ → ℚ) (XWithBias : List (List ℚ)) (y : List ℚ)
    (learningRate regularization : ℚ) (w : List ℚ) : List ℚ :=
  idxMap (fun j wj =>
    wj - learningRate * (logisticGradient expQ XWithBias y w regularization).getD j 0) w

/-- Squared Euclidean norm of the weight change of one pass: the quantity
whose square root the convergence check of lines 355-363 compares to
`0.0001`. -/
def trainStepDeltaSq (expQ : ℚ → ℚ) (XWithBias : List (List ℚ)) (y : List ℚ)
    (learningRate regularization : ℚ) (w : List ℚ) : ℚ :=
  sumSqQ (((trainStepWeights expQ XWithBias y learningRate regularization w).zip w).map
    (fun p => p.1 - p.2))

/-- One full pass of the gradient-descent loop body (lines 322-365):
update the weights, push the cost, record the squared weight delta, bump
the counter, and set the convergence flag exactly when the pre-increment
counter satisfies `iteration > 5` and `sqrt (Σ (w − oldW)²) < 0.0001`. -/
def trainStepState (expQ logQ sqrtQ : ℚ → ℚ) (XWithBias : List (List ℚ))
    (y : List ℚ) (learningRate regularization : ℚ) (st : TrainState) : TrainState :=
  let newWeights := trainStepWeights expQ XWithBias y learningRate regularization st.weights
  let deltaSq := trainStepDeltaSq expQ XWithBias y learningRate regularization st.weights
  { weights := newWeights
    iterations := st.iterations + 1
    converged := decide (st.iterations > 5) && decide (sqrtQ deltaSq < 1/10000)
    costHistory := st.costHistory ++
      [logisticCost expQ logQ XWithBias y newWeights regularization]
    deltaSqHistory := st.deltaSqHistory ++ [deltaSq] }

/-- The gradient-descent loop of lines 321-366, by fuel recursion (fuel =
`maxIterations − iteration`): run a pass; if it set the convergence flag,
stop, else continue while fuel remains. -/
def trainLoop (expQ logQ sqrtQ : ℚ → ℚ) (XWithBias : List (List ℚ))
    (y : List ℚ) (learningRate regularization : ℚ) :
    ℕ → TrainState → TrainState
  | 0, st => st
  | fuel + 1, st =>
    let st1 := trainStepState expQ logQ sqrtQ XWithBias y learningRate regularization st
    if st1.converged then st1
    else trainLoop expQ logQ sqrtQ XWithBias y learningRate regularization fuel st1

/-- Confusion-matrix counts of lines 372-385. -/
structure ConfusionMatrix where
  truePositive : ℕ
  falsePositive : ℕ
  trueNegative : ℕ
  falseNegative : ℕ
deriving Repr

/-- Performance metrics of lines 368-405.  In JS, `a / 0` is `NaN` and the
`|| 0` fallback turns it into 0; division on `ℚ` already returns 0 there,
so plain division is an exact model of `x / y || 0` for the values that
occur. -/
structure TrainPerformance where
  accuracy : ℚ
  precision : ℚ
  recallScore : ℚ
  f1Score : ℚ
  confusionMatrix : ConfusionMatrix
deriving Repr

/-- Full result of `trainPredictionModel` after the loop. -/
structure TrainResult where
  weights : List ℚ
  numFeatures : ℕ
  converged : Bool
  iterations : ℕ
  costHistory : List ℚ
  deltaSqHistory : List ℚ
  performance : TrainPerformance
deriving Repr

/-- Initial loop state: all weights 0 (line 314), counter 0, not
converged, empty histories. -/
def initTrainState (numFeatures : ℕ) : TrainState :=
  { weights := List.replicate numFeatures 0
    iterations := 0
    converged := false
    costHistory := []
    deltaSqHistory := [] }

/-- Embedding of the body of `trainPredictionModel` after input validation
(lines 308-406): bias column prepended, weights initialised to 0, the
gradient-descent loop, then training-set metrics at threshold 0.5. -/
def trainCore (expQ logQ sqrtQ : ℚ → ℚ) (X : List (List ℚ)) (y : List ℚ)
    (options : TrainOptions) : TrainResult :=
  let XWithBias := X.map (fun row => 1 :: row)
  let numFeatures := (XWithBias.headD []).length
  let final := trainLoop expQ logQ sqrtQ XWithBias y
    options.learningRate options.regularization options.maxIterations
    (initTrainState numFeatures)
  let predictions := XWithBias.map (fun row =>
    if sigmoidQ expQ (dotQ row final.weights) ≥ 1/2 then (1 : ℚ) else 0)
  let py := predictions.zip y
  let cm : ConfusionMatrix :=
    { truePositive := (py.filter (fun p => p.2 = 1 ∧ p.1 = 1)).length
      falsePositive := (py.filter (fun p => p.2 = 0 ∧ p.1 = 1)).length
      trueNegative := (py.filter (fun p => p.2 = 0 ∧ p.1 = 0)).length
      falseNegative := (py.filter (fun p => p.2 = 1 ∧ p.1 = 0)).length }
  let accuracy := ((py.filter (fun p => p.1 = p.2)).length : ℚ) / (y.length : ℚ)
  let precision := (cm.truePositive : ℚ) / ((cm.truePositive : ℚ) + (cm.falsePositive : ℚ))
  let recallScore := (cm.truePositive : ℚ) / ((cm.truePositive : ℚ) + (cm.falseNegative : ℚ))
  let f1Score := 2 * (precision * recallScore) / (precision + recallScore)
  { weights := final.weights
    numFeatures := numFeatures
    converged := final.converged
    iterations := final.iterations
    costHistory := final.costHistory
    deltaSqHistory := final.deltaSqHistory
    performance := { accuracy := accuracy, precision := precision,
                     recallScore := recallScore, f1Score := f1Score, confusionMatrix := cm } }

/-- Embedding of `trainPredictionModel(data)` (lines 299-410) including the
input validation of lines 304-306. -/
def trainPredictionModel (expQ logQ sqrtQ : ℚ → ℚ)
    (X : Option (List (List ℚ))) (y : Option (List ℚ)) (options : TrainOptions) :
    Except JsError TrainResult :=
  match X, y with
  | some X, some y =>
    if X.length = 0 ∨ y.length = 0 ∨ X.length ≠ y.length then
      .error (.runtimeError "Invalid input data for model training")
    else .ok (trainCore expQ logQ sqrtQ X y options)
  | _, _ => .error (.runtimeError "Invalid input data for model training")

/-- Model input of the worker `predictWinRate` (just the weight vector is
used). -/
structure WorkerModel where
  weights : List ℚ

/-- Result of the worker `predictWinRate`. -/
structure WorkerPrediction where
  probability : ℚ
  category : String
  featureContributions : List (ℚ × ℚ × ℚ × ℕ)
deriving Repr

/-- Contribution list of `calculateFeatureContributions` (lines 692-699),
sorted by descending absolute contribution. -/
def featureContributionsOf (features weights : List ℚ) :
    List (ℚ × ℚ × ℚ × ℕ) :=
  (idxMap (fun i p => (p.1 * p.2, p.2, p.1, i)) (features.zip weights)).mergeSort
    (fun a b => |b.1| ≤ |a.1|)

/-- Embedding of the worker `predictWinRate({model, features})` (lines
419-454): missing model or features throws; a length mismatch in
`dotProduct` throws; otherwise the sigmoid probability is bucketed as
`high` when `probability ≥ 0.7`, `medium` when `≥ 0.4`, else `low`. -/
def workerPredictWinRate (expQ : ℚ → ℚ) (model : Option WorkerModel)
    (features : Option (List ℚ)) : Except JsError WorkerPrediction :=
  match model, features with
  | some model, some features =>
    let featuresWithBias := 1 :: features
    if featuresWithBias.length ≠ model.weights.length then
      .error (.runtimeError "Vectors must have the same length for dot product")
    else
      let probability := sigmoidQ expQ (dotQ featuresWithBias model.weights)
      .ok { probability := probability
            category :=
              if probability ≥ 7/10 then "high"
              else if probability ≥ 4/10 then "medium"
              else "low"
            featureContributions :=
              featureContributionsOf featuresWithBias model.weights }
  | _, _ => .error (.runtimeError "Missing model or features for prediction")

/-! ## Backend prediction service (src/unnamed/part_009) -/

/-- A stored backend model as built by `buildPredictionModel` (lines
191-209): coefficient vector (index 0 = intercept), dimension names and the
stored `EncodingInfo`. -/
structure BackendModel where
  coefficients : List ℚ
  dimensions : List String
  encodingInfo : EncodingInfo

/-- Encoding applied by the stored model `predict` closure (lines 199-205)
and again in `predictWinRate` (lines 249-253): when the model has encoding
information for the dimension, look the (stringified) value up and fall
back to 0 via `|| 0` — for a code of 0 the fallback returns the same 0, so
`getD 0` is an exact model; without encoding information the raw value
passes through. -/
def encodeDimValue (enc : EncodingInfo) (dim : String) (v : JsValue) : JsValue :=
  match encodingLookup enc dim with
  | some m =>
    .num (((m.find? (fun kc => kc.1 = v.toKeyString)).map (fun kc => kc.2)).getD 0)
  | none => v

/-- The model `predict` closure (lines 197-208): encode each dimension
value, then `sigmoid(coefficients · (1 :: features))`. -/
def backendModelPredict (expQ : ℚ → ℚ) (m : BackendModel)
    (features : String → JsValue) : ℚ :=
  let encodedFeatures := m.dimensions.map (fun d =>
    (encodeDimValue m.encodingInfo d (features d)).toNumD)
  sigmoidQ expQ (dotQ m.coefficients (1 :: encodedFeatures))

/-- Result of the backend `predictWinRate`. -/
structure BackendPrediction where
  probability : ℚ
  category : String
  contributions : List (String × ℚ × JsValue × ℚ × ℚ)
deriving Repr

/-- Embedding of the backend `predictWinRate(opportunity, model)` (part_009
lines 232-294): probability through the stored model, per-dimension
contributions `coefficient × encodedValue`, and the category rule of lines
271-274 — `Medium` by default, `High` when `probability ≥ 0.75`, `Low` when
`probability < 0.25`. -/
def backendPredictWinRate (expQ : ℚ → ℚ) (opportunity : Rec)
    (model : BackendModel) : BackendPrediction :=
  let opportunityFeatures := fun dim => opportunity.getField dim
  let probability := backendModelPredict expQ model opportunityFeatures
  let contributions := (idxMap (fun index dim =>
    let coefficient := model.coefficients.getD (index + 1) 0
    let value := opportunityFeatures dim
    let encodedValue :=
      match encodingLookup model.encodingInfo dim with
      | some _ => (encodeDimValue model.encodingInfo dim value).toNumD
      | none => value.toNumD
    (dim, coefficient, value, encodedValue, coefficient * encodedValue))
    model.dimensions).mergeSort
      (fun a b => |b.2.2.2.2| ≤ |a.2.2.2.2|)
  let category :=
    if probability ≥ 75/100 then "High"
    else if probability < 25/100 then "Low"
    else "Medium"
  { probability := probability, category := category, contributions := contributions }

/-- Embedding of `buildPredictionModel(opportunities, dimensions,
targetVariable)` (part_009 lines 16-224): the `preprocessData` call through
the undefined import binding throws first, for every input, and the `catch`
rephrases the message.  The dead success branch would train a logistic
model on the preprocessed data. -/
def buildPredictionModel (_expQ _logQ : ℚ → ℚ) (opportunities : List Rec)
    (dims : List String) (targetVariable : String) :
    Except JsError BackendModel :=
  wrapCatch "Failed to build prediction model"
    (importedCall dataProcessingUtilsExports "preprocessData"
      (let d := preprocessDataModel opportunities dims targetVariable
       .ok { coefficients := List.replicate (dims.length + 1) 0
             dimensions := dims
             encodingInfo := d.encodingInfo }))

/-! ## Concrete inputs used by counterexamples and witnesses -/

/-- One won opportunity with a single dimension value, for the lookup-table
claims. -/
def c1Opps : List Rec := [[("stage", JsValue.str "A"), ("IsWon", JsValue.boolV true)]]

/-- The single cell the lookup table of `c1Opps` produces. -/
def c1Cell : LookupCell := mkLookupCell (fun _ => 0) c1Opps [("stage", JsValue.str "A")]

/-- Two one-dimensional feature points for the k-means step claims. -/
def c2Features : List (List ℚ) := [[0], [10]]

/-- Three centroids; with `c2Features` the third cluster ends up empty. -/
def c2Centroids : List (List ℚ) := [[0], [10], [100]]

/-- Design data for the adjusted-R² claim: n = 10 observations of one
predictor. -/
def c4X : List (List ℚ) := [[0], [0], [0], [0], [0], [1], [1], [1], [1], [1]]

/-- Targets for `c4X`: group means 1/5 and 4/5, so R² = 9/25. -/
def c4y : List ℚ := [0, 0, 0, 0, 1, 0, 1, 1, 1, 1]

/-- Modelled from the spec: the stopping iteration the spec sentence
"stops when the Euclidean norm of the weight delta falls below 1e-4 after
a minimum of 5 iterations" predicts for a run whose per-pass squared
weight deltas are `deltas` — the first pass (0-based) at which at least 5
iterations have already run (index ≥ 5) and the norm is below the
threshold, as a 1-based iteration count; `maxIterations` when no pass
qualifies. -/
def specStopIteration (sqrtQ : ℚ → ℚ) (deltas : List ℚ) (maxIterations : ℕ) : ℕ :=
  match ((List.range maxIterations).filter
      (fun i => decide (5 ≤ i) && decide (sqrtQ (deltas.getD i 0) < 1/10000))).head? with
  | some i => i + 1
  | none => maxIterations

/-- A training run with learning rate 0: the weights never move, so every
pass's weight delta is 0 (below every threshold). -/
def c6Run : TrainResult :=
  trainCore (fun _ => 1) (fun _ => 0) (fun q => q) [[1]] [1]
    { maxIterations := 10, learningRate := 0, regularization := 1/100 }

/-- The same run capped at 3 iterations: the convergence check never fires
(the counter never exceeds 5), so the cap is reached. -/
def c6ShortRun : TrainResult :=
  trainCore (fun _ => 1) (fun _ => 0) (fun q => q) [[1]] [1]
    { maxIterations := 3, learningRate := 0, regularization := 1/100 }

/-- A backend model with intercept 1 and no dimensions: its predicted
probability is `sigmoid(1)`. -/
def c7Model : BackendModel := ⟨[1], [], []⟩

/-- The worker prediction produced for the same sigmoid stub: probability
exactly 0.7. -/
def c7WorkerPred : WorkerPrediction := ⟨7/10, "high", [(1, 1, 1, 0)]⟩

/-- Two records seen while building an encoding: first-seen codes 0 and
1. -/
def c8Records : List Rec :=
  [[("Region", JsValue.str "EMEA")], [("Region", JsValue.str "APAC")]]

/-- The resulting stored EncodingInfo for dimension `Region`. -/
def c8EncInfo : EncodingInfo := [("Region", buildEncodingForDim c8Records "Region")]

/-- Trivial numeric oracles for the worker message witness. -/
def c9Oracles : StatOracles := ⟨fun q => q, fun _ _ => 0, fun _ _ => 0, fun _ _ _ => 0⟩

/-- The single response the regression worker posts for an unknown
action. -/
def c9Response : WorkerResponse :=
  { success := false, id := 5, result := none, error := some "Unknown action: nope" }

/-- One record with one null dimension value. -/
def c10Data : List Rec := [[("a", JsValue.nullV)]]

/-- Discriminator: is a result an `InvalidKError`?  (No embedded function
ever constructs one.) -/
def isInvalidKResult : Except JsError α → Bool
  | .error (.invalidKError _) => true
  | _ => false

end WinRate

namespace WinRate

/-! # Shared lemmas -/

/-- Per-cell facts about `mkLookupCell`: the sample size is the match
count, the win rate is `100 · wins / sampleSize` (a percentage), it lies in
`[0, 100]`, and an empty sample yields rate 0 with a `null` confidence
interval. -/
theorem mkLookupCell_spec (sqrtQ : ℚ → ℚ) (opportunities : List Rec)
    (combo : List (String × JsValue)) :
    let cell := mkLookupCell sqrtQ opportunities combo
    cell.sampleSize = (matchingOpps opportunities combo).length ∧
    cell.winRate = 100 * ((winsAmong opportunities combo : ℚ) / (cell.sampleSize : ℚ)) ∧
    0 ≤ cell.winRate ∧ cell.winRate ≤ 100 ∧
    (cell.sampleSize = 0 → cell.winRate = 0 ∧ cell.confidenceInterval = none) := by
  intro cell
  by_cases h : 0 < (matchingOpps opportunities combo).length
  · have hwins : winsAmong opportunities combo ≤ (matchingOpps opportunities combo).length :=
      List.length_filter_le _ _
    have hpos : (0 : ℚ) < ((matchingOpps opportunities combo).length : ℚ) := by
      exact_mod_cast h
    refine ⟨rfl, ?_, ?_, ?_, ?_⟩
    · simp only [cell, mkLookupCell, if_pos h]
      ring
    · simp only [cell, mkLookupCell, if_pos h]
      positivity
    · simp only [cell, mkLookupCell, if_pos h]
      have hle : ((winsAmong opportunities combo : ℚ) /
          ((matchingOpps opportunities combo).length : ℚ)) ≤ 1 := by
        rw [div_le_one hpos]
        exact_mod_cast hwins
      nlinarith
    · intro h0
      simp only [cell, mkLookupCell] at h0
      omega
  · have hz : (matchingOpps opportunities combo).length = 0 := by omega
    have hnil : matchingOpps opportunities combo = [] :=
      List.length_eq_zero.mp hz
    have hwz : winsAmong opportunities combo = 0 := by
      simp [winsAmong, hnil]
    refine ⟨rfl, ?_, ?_, ?_, ?_⟩
    · simp [cell, mkLookupCell, if_neg h, hwz, hz]
    · simp [cell, mkLookupCell, if_neg h]
    · simp [cell, mkLookupCell, if_neg h]
    · intro _
      simp [cell, mkLookupCell, if_neg h]

/-! # Claim C1 -/

/-- Claim C1, counterexample.  The claim states that every cell's `winRate`
equals `wins / sampleSize`, a fraction in `[0, 1]`.  On a single won record
matching its own combination, the generated cell has `winRate = 100` and
`sampleSize = 1` while `wins / sampleSize = 1`: the code stores a
percentage, not a fraction. -/
theorem C1_counterexample :
    ((generateWinRateLookupTable (fun _ => 0) c1Opps ["stage"] 1000).lookupTable.map
      (fun c => (c.winRate, c.sampleSize))) = [(100, 1)] ∧
    winsAmong c1Opps [("stage", JsValue.str "A")] = 1 ∧
    ((100 : ℚ) ≠ (1 : ℚ) / (1 : ℚ)) := by
  refine ⟨?_, ?_, by norm_num⟩
  · simp [generateWinRateLookupTable, allCombinations, selectedDimensionValues,
      distinctValues, mkLookupCell, winsAmong, matchingOpps, Rec.getField, Rec.isWon,
      c1Opps, JsValue.looseEq, JsValue.truthy, List.find?, List.filter]
  · simp [winsAmong, matchingOpps, Rec.getField, Rec.isWon, c1Opps,
      JsValue.looseEq, JsValue.truthy, List.find?, List.filter]

/-- Claim C1, amended: for every call to `generateWinRateLookupTable` and
every cell it emits, the cell's `winRate` equals `100 · wins / sampleSize`
— the win percentage among the records loosely matching the cell's
combination, a value in `[0, 100]` — and whenever `sampleSize = 0` the
`winRate` is 0 and the confidence interval is `null`, with no error
raised (the generator is total). -/
theorem C1_lookup_cell_winRate (sqrtQ : ℚ → ℚ) (opportunities : List Rec)
    (dims : List String) (maxCombinations : ℕ) :
    ∀ cell ∈ (generateWinRateLookupTable sqrtQ opportunities dims
        maxCombinations).lookupTable,
      cell.sampleSize = (matchingOpps opportunities cell.combo).length ∧
      cell.winRate = 100 * ((winsAmong opportunities cell.combo : ℚ) /
        (cell.sampleSize : ℚ)) ∧
      0 ≤ cell.winRate ∧ cell.winRate ≤ 100 ∧
      (cell.sampleSize = 0 → cell.winRate = 0 ∧ cell.confidenceInterval = none) := by
  intro cell hcell
  simp only [generateWinRateLookupTable, List.mem_map] at hcell
  obtain ⟨combo, _, rfl⟩ := hcell
  have h := mkLookupCell_spec sqrtQ opportunities combo
  simpa using h

/-- Witness for `C1_lookup_cell_winRate` at the concrete table of
`c1Opps`. -/
theorem C1_lookup_cell_winRate_witness :
    c1Cell.sampleSize = (matchingOpps c1Opps c1Cell.combo).length ∧
    c1Cell.winRate = 100 * ((winsAmong c1Opps c1Cell.combo : ℚ) /
      (c1Cell.sampleSize : ℚ)) ∧
    0 ≤ c1Cell.winRate ∧ c1Cell.winRate ≤ 100 ∧
    (c1Cell.sampleSize = 0 → c1Cell.winRate = 0 ∧ c1Cell.confidenceInterval = none) :=
  C1_lookup_cell_winRate (fun _ => 0) c1Opps ["stage"] 1000 c1Cell
    (by simp [generateWinRateLookupTable, allCombinations, selectedDimensionValues,
      distinctValues, c1Cell, c1Opps, Rec.getField, List.find?])

/-! # Claim C2 -/

/-- Getting index `i` of a mapped list, for `i` within bounds. -/
theorem getD_map_lt (f : α → β) (d0 : α) (dflt : β) :
    ∀ (l : List α) (i : ℕ), i < l.length → (l.map f).getD i dflt = f (l.getD i d0)
  | _ :: _, 0, _ => rfl
  | _ :: l, i + 1, h => getD_map_lt f d0 dflt l i (by simpa using h)

/-- Claim C2, counterexample.  With centroids `[[0], [10], [100]]` and
points `[[0], [10]]`, cluster 2 receives no members, and the recomputed
centroid for cluster 2 is `centroids[0] = [0]`, not its own previous
centroid `[100]`: the code retains the FIRST centroid for an empty
cluster, not the empty cluster's own. -/
theorem C2_counterexample :
    (assignClusters (fun q => q) c2Features c2Centroids).getD 2 [] = [] ∧
    (updateCentroids c2Centroids
      (assignClusters (fun q => q) c2Features c2Centroids)).getD 2 [] = [0] ∧
    c2Centroids.getD 2 [] = [100] ∧ (([0] : List ℚ) ≠ [100]) := by
  refine ⟨?_, ?_, by norm_num [c2Centroids], by norm_num⟩ <;>
    norm_num [assignClusters, updateCentroids, closestCentroidIdx, distQ, sumSqQ,
      meanPoint, meanQ, c2Features, c2Centroids, List.filter, List.range_succ]

/-- Claim C2, amended: in the centroid-update step of the k-means loop of
`performDimensionClustering`, a cluster with no assigned members gets the
previous centroid of the FIRST cluster (`centroids[0]`) — which is its own
previous centroid only when it is cluster 0 — and no division by zero
occurs; every non-empty cluster gets the coordinate-wise mean of its
members. -/
theorem C2_empty_cluster_update (sqrtQ : ℚ → ℚ)
    (features centroids : List (List ℚ)) (i : ℕ) (hi : i < centroids.length) :
    ((assignClusters sqrtQ features centroids).getD i [] = [] →
      (updateCentroids centroids
        (assignClusters sqrtQ features centroids)).getD i [] =
        centroids.getD 0 []) ∧
    ((assignClusters sqrtQ features centroids).getD i [] ≠ [] →
      (updateCentroids centroids
        (assignClusters sqrtQ features centroids)).getD i [] =
        meanPoint (((assignClusters sqrtQ features centroids).getD i []).map
          Prod.fst)) := by
  have hlen : (assignClusters sqrtQ features centroids).length = centroids.length := by
    simp [assignClusters]
  have hilt : i < (assignClusters sqrtQ features centroids).length := by omega
  constructor
  · intro h
    rw [updateCentroids, getD_map_lt _ ([] : List (List ℚ × ℕ)) _ _ i hilt, h]
    rfl
  · intro h
    rw [updateCentroids, getD_map_lt _ ([] : List (List ℚ × ℕ)) _ _ i hilt,
      if_neg (by simpa [List.length_eq_zero] using h)]

/-- Witness for `C2_empty_cluster_update`: the empty third cluster of the
concrete configuration gets `centroids[0]`. -/
theorem C2_empty_cluster_update_witness :
    (updateCentroids c2Centroids
      (assignClusters (fun q => q) c2Features c2Centroids)).getD 2 [] =
      c2Centroids.getD 0 [] :=
  (C2_empty_cluster_update (fun q => q) c2Features c2Centroids 2
      (by norm_num [c2Centroids])).1
    (by norm_num [assignClusters, closestCentroidIdx, distQ, sumSqQ,
      c2Features, c2Centroids, List.filter, List.range_succ])

/-! # Claim C3 -/

/-- Claim C3: the data-processing utilities module exports no
`preprocessData`, so the imported binding is `undefined` and every call to
`performMultivariateRegression`, `performDimensionClustering` and
`buildPredictionModel` — whatever the opportunities, dimensions and target
— throws in that first call, before any regression, clustering or training
arithmetic runs. -/
theorem C3_preprocessData_import_always_throws :
    "preprocessData" ∉ dataProcessingUtilsExports ∧
    (∀ (sqrtQ : ℚ → ℚ) (tCdf tInv : ℚ → ℚ → ℚ) (opportunities : List Rec)
        (dims : List String) (targetVariable : String),
      performMultivariateRegression sqrtQ tCdf tInv opportunities dims targetVariable =
        .error (.runtimeError
          "Failed to perform regression analysis: preprocessData is not a function")) ∧
    (∀ (sqrtQ : ℚ → ℚ) (rand : ℕ → ℕ) (opportunities : List Rec)
        (dims : List String) (k : ℕ),
      performDimensionClustering sqrtQ rand opportunities dims k =
        .error (.runtimeError
          "Failed to perform dimension clustering: preprocessData is not a function")) ∧
    (∀ (expQ logQ : ℚ → ℚ) (opportunities : List Rec) (dims : List String)
        (targetVariable : String),
      buildPredictionModel expQ logQ opportunities dims targetVariable =
        .error (.runtimeError
          "Failed to build prediction model: preprocessData is not a function")) := by
  refine ⟨by decide, fun _ _ _ _ _ _ => rfl, fun _ _ _ _ _ => rfl,
    fun _ _ _ _ _ => rfl⟩

/-! # Claim C4 -/

/-- Claim C4: evaluation of the backend regression body at the failing
input.  On 10 observations of p = 1 predictor with R² = 9/25, the claimed
formula `1 − (1−R²)(n−1)/(n−p−1)` gives 49/175, but the reported
`adjustedRSquared` is 31/175: the code sets `p = dimensions.length + 1`
("+1 for intercept") and then still subtracts 1 more, dividing by
`n − dims − 2`.  The worker regression (part_000 line 107) uses the claimed
formula; the backend service does not. -/
theorem C4_backend_adjustedRSquared_bug :
    (analyticsRegressionCore (fun q => q) (fun _ _ => 0) (fun _ _ => 0)
      c4X c4y ["x"]).rSquared = 9/25 ∧
    (analyticsRegressionCore (fun q => q) (fun _ _ => 0) (fun _ _ => 0)
      c4X c4y ["x"]).adjustedRSquared = 31/175 ∧
    (1 : ℚ) - (1 - 9/25) * ((10 : ℚ) - 1) / ((10 : ℚ) - 1 - 1) = 49/175 ∧
    ((31/175 : ℚ) ≠ 49/175) := by
  refine ⟨?_, ?_, by norm_num, by norm_num⟩ <;>
    norm_num [analyticsRegressionCore, matInvQ, matMulQ, matVecQ, transposeQ,
      dotQ, diagQ, meanQ, sumSqQ, idxMap, idxMapFrom, c4X, c4y,
      List.range_succ, List.zipWith, List.zip, List.foldl]

/-! # Claim C5 -/

/-- Claim C5, counterexample.  A clustering call with `k = 0 < 1` does fail
— but with the wrapped `TypeError` coming from the undefined
`preprocessData` import, not with an `InvalidKError`; no `InvalidKError`
is ever produced. -/
theorem C5_counterexample :
    performDimensionClustering (fun q => q) (fun _ => 0) c1Opps ["stage"] 0 =
      .error (.runtimeError
        "Failed to perform dimension clustering: preprocessData is not a function") ∧
    isInvalidKResult
      (performDimensionClustering (fun q => q) (fun _ => 0) c1Opps ["stage"] 0) =
      false ∧ (0 : ℕ) < 1 := by
  exact ⟨rfl, rfl, by decide⟩

/-- Claim C5, amended: every call to `performDimensionClustering` fails —
in particular whenever `k < 1` or `k` exceeds the number of points — but
always with the error raised by the undefined `preprocessData` import
(rephrased by the catch block), never with an `InvalidKError`, and no
clustering result is produced. -/
theorem C5_no_invalidK_validation (sqrtQ : ℚ → ℚ) (rand : ℕ → ℕ)
    (opportunities : List Rec) (dims : List String) (k : ℕ) :
    performDimensionClustering sqrtQ rand opportunities dims k =
      .error (.runtimeError
        "Failed to perform dimension clustering: preprocessData is not a function") ∧
    isInvalidKResult (performDimensionClustering sqrtQ rand opportunities dims k) =
      false := ⟨rfl, rfl⟩

/-! # Claim C6

Lemmas about the training loop, then the claim.  The convergence check of
the source fires only when the pre-increment counter exceeds 5 — i.e. from
the 7th iteration on — while the claim reads "after a minimum of 5
iterations have run". -/

/-- Length of an index-aware map. -/
theorem idxMapFrom_length (f : ℕ → α → β) :
    ∀ (i : ℕ) (l : List α), (idxMapFrom f i l).length = l.length
  | _, [] => rfl
  | i, _ :: l => by simp [idxMapFrom, idxMapFrom_length f (i + 1) l]

/-- Length of an index-aware map. -/
theorem idxMap_length (f : ℕ → α → β) (l : List α) :
    (idxMap f l).length = l.length := idxMapFrom_length f 0 l

/-- Getting inside the left part of an append. -/
theorem getD_append_lt (l l2 : List α) (d : α) :
    ∀ j, j < l.length → (l ++ l2).getD j d = l.getD j d := by
  intro j hj
  induction l generalizing j with
  | nil => simp at hj
  | cons a l ih =>
    cases j with
    | zero => rfl
    | succ j => exact ih j (by simpa using hj)

/-- Getting the appended element. -/
theorem getD_concat_len (l : List α) (a : α) (d : α) :
    (l ++ [a]).getD l.length d = a := by
  induction l with
  | nil => rfl
  | cons b l ih => simp [ih]

/-- One pass bumps the iteration counter. -/
theorem trainStepState_iterations (expQ logQ sqrtQ : ℚ → ℚ)
    (XWithBias : List (List ℚ)) (y : List ℚ) (lr reg : ℚ) (st : TrainState) :
    (trainStepState expQ logQ sqrtQ XWithBias y lr reg st).iterations =
      st.iterations + 1 := rfl

/-- One pass preserves the number of weights. -/
theorem trainStepState_weights_length (expQ logQ sqrtQ : ℚ → ℚ)
    (XWithBias : List (List ℚ)) (y : List ℚ) (lr reg : ℚ) (st : TrainState) :
    (trainStepState expQ logQ sqrtQ XWithBias y lr reg st).weights.length =
      st.weights.length := idxMap_length _ _

/-- One pass appends its squared weight delta to the history. -/
theorem trainStepState_deltaSqHistory (expQ logQ sqrtQ : ℚ → ℚ)
    (XWithBias : List (List ℚ)) (y : List ℚ) (lr reg : ℚ) (st : TrainState) :
    (trainStepState expQ logQ sqrtQ XWithBias y lr reg st).deltaSqHistory =
      st.deltaSqHistory ++ [trainStepDeltaSq expQ XWithBias y lr reg st.weights] := rfl

/-- The convergence flag a pass computes: counter above 5 AND small weight
delta. -/
theorem trainStepState_converged (expQ logQ sqrtQ : ℚ → ℚ)
    (XWithBias : List (List ℚ)) (y : List ℚ) (lr reg : ℚ) (st : TrainState) :
    (trainStepState expQ logQ sqrtQ XWithBias y lr reg st).converged =
      (decide (st.iterations > 5) &&
       decide (sqrtQ (trainStepDeltaSq expQ XWithBias y lr reg st.weights) < 1/10000)) := rfl

/-- Shape invariants of the training loop: histories track the iteration
count, weights keep their length, and the iteration count grows by at most
the fuel. -/
theorem trainLoop_shape (expQ logQ sqrtQ : ℚ → ℚ) (XWithBias : List (List ℚ))
    (y : List ℚ) (lr reg : ℚ) :
    ∀ (fuel : ℕ) (st : TrainState),
      st.deltaSqHistory.length = st.iterations →
      st.costHistory.length = st.iterations →
      (trainLoop expQ logQ sqrtQ XWithBias y lr reg fuel st).deltaSqHistory.length =
        (trainLoop expQ logQ sqrtQ XWithBias y lr reg fuel st).iterations ∧
      (trainLoop expQ logQ sqrtQ XWithBias y lr reg fuel st).costHistory.length =
        (trainLoop expQ logQ sqrtQ XWithBias y lr reg fuel st).iterations ∧
      (trainLoop expQ logQ sqrtQ XWithBias y lr reg fuel st).weights.length =
        st.weights.length ∧
      st.iterations ≤ (trainLoop expQ logQ sqrtQ XWithBias y lr reg fuel st).iterations ∧
      (trainLoop expQ logQ sqrtQ XWithBias y lr reg fuel st).iterations ≤
        st.iterations + fuel := by
  intro fuel
  induction fuel with
  | zero =>
    intro st hd hc
    exact ⟨hd, hc, rfl, le_refl _, Nat.le_add_right _ _⟩
  | succ fuel ih =>
    intro st hd hc
    simp only [trainLoop]
    by_cases hcnd : (trainStepState expQ logQ sqrtQ XWithBias y lr reg st).converged = true
    · rw [if_pos hcnd]
      refine ⟨?_, ?_, trainStepState_weights_length _ _ _ _ _ _ _ _, ?_, ?_⟩
      · simp [trainStepState, hd]
      · simp [trainStepState, hc]
      · rw [trainStepState_iterations]; omega
      · rw [trainStepState_iterations]; omega
    · rw [if_neg hcnd]
      have := ih (trainStepState expQ logQ sqrtQ XWithBias y lr reg st)
        (by simp [trainStepState, hd]) (by simp [trainStepState, hc])
      obtain ⟨A, B, C, D1, D2⟩ := this
      rw [trainStepState_iterations] at D1 D2
      refine ⟨A, B, ?_, by omega, by omega⟩
      rw [C, trainStepState_weights_length]

/-- The loop never rewrites already-recorded history entries. -/
theorem trainLoop_history_stable (expQ logQ sqrtQ : ℚ → ℚ) (XWithBias : List (List ℚ))
    (y : List ℚ) (lr reg : ℚ) :
    ∀ (fuel : ℕ) (st : TrainState),
      st.deltaSqHistory.length = st.iterations →
      ∀ j, j < st.iterations →
        (trainLoop expQ logQ sqrtQ XWithBias y lr reg fuel st).deltaSqHistory.getD j 0 =
          st.deltaSqHistory.getD j 0 := by
  intro fuel
  induction fuel with
  | zero => intro st _ j _; rfl
  | succ fuel ih =>
    intro st hd j hj
    simp only [trainLoop]
    by_cases hcnd : (trainStepState expQ logQ sqrtQ XWithBias y lr reg st).converged = true
    · rw [if_pos hcnd, trainStepState_deltaSqHistory]
      exact getD_append_lt _ _ _ j (by omega)
    · rw [if_neg hcnd]
      rw [ih (trainStepState expQ logQ sqrtQ XWithBias y lr reg st)
        (by simp [trainStepState, hd]) j
        (by rw [trainStepState_iterations]; omega)]
      rw [trainStepState_deltaSqHistory]
      exact getD_append_lt _ _ _ j (by omega)

/-- The loop reports convergence exactly when some pass with pre-increment
counter above 5 had a weight delta below the threshold. -/
theorem trainLoop_converged_iff (expQ logQ sqrtQ : ℚ → ℚ) (XWithBias : List (List ℚ))
    (y : List ℚ) (lr reg : ℚ) :
    ∀ (fuel : ℕ) (st : TrainState),
      st.converged = false →
      st.deltaSqHistory.length = st.iterations →
      ((trainLoop expQ logQ sqrtQ XWithBias y lr reg fuel st).converged = true ↔
        ∃ i, st.iterations ≤ i ∧
          i < (trainLoop expQ logQ sqrtQ XWithBias y lr reg fuel st).iterations ∧
          5 < i ∧
          sqrtQ ((trainLoop expQ logQ sqrtQ XWithBias y lr reg fuel st).deltaSqHistory.getD i 0) <
            1/10000) := by
  intro fuel
  induction fuel with
  | zero =>
    intro st hconv hd
    simp only [trainLoop]
    rw [hconv]
    constructor
    · intro h; cases h
    · rintro ⟨i, h1, h2, _, _⟩; omega
  | succ fuel ih =>
    intro st hconv hd
    simp only [trainLoop]
    by_cases hcnd : (trainStepState expQ logQ sqrtQ XWithBias y lr reg st).converged = true
    · rw [if_pos hcnd]
      have hpair := (Bool.and_eq_true _ _).mp
        ((trainStepState_converged expQ logQ sqrtQ XWithBias y lr reg st) ▸ hcnd)
      have h5 : 5 < st.iterations := of_decide_eq_true hpair.1
      have hlt : sqrtQ (trainStepDeltaSq expQ XWithBias y lr reg st.weights) < 1/10000 :=
        of_decide_eq_true hpair.2
      constructor
      · intro _
        refine ⟨st.iterations, le_refl _, ?_, h5, ?_⟩
        · rw [trainStepState_iterations]; omega
        · rw [trainStepState_deltaSqHistory, ← hd, getD_concat_len]
          exact hlt
      · intro _; exact hcnd
    · rw [if_neg hcnd]
      have hstep : (trainStepState expQ logQ sqrtQ XWithBias y lr reg st).converged = false :=
        eq_false_of_ne_true hcnd
      rw [ih (trainStepState expQ logQ sqrtQ XWithBias y lr reg st) hstep
        (by simp [trainStepState, hd])]
      constructor
      · rintro ⟨i, h1, h2, h3, h4⟩
        rw [trainStepState_iterations] at h1
        exact ⟨i, by omega, h2, h3, h4⟩
      · rintro ⟨i, h1, h2, h3, h4⟩
        by_cases hi : st.iterations + 1 ≤ i
        · refine ⟨i, ?_, h2, h3, h4⟩
          rw [trainStepState_iterations]
          omega
        · exfalso
          have hieq : i = st.iterations := by omega
          subst hieq
          rw [trainLoop_history_stable expQ logQ sqrtQ XWithBias y lr reg fuel
              (trainStepState expQ logQ sqrtQ XWithBias y lr reg st)
              (by simp [trainStepState, hd]) st.iterations
              (by rw [trainStepState_iterations]; omega),
            trainStepState_deltaSqHistory, ← hd, getD_concat_len] at h4
          have : (trainStepState expQ logQ sqrtQ XWithBias y lr reg st).converged = true := by
            rw [trainStepState_converged]
            simp only [Bool.and_eq_true, decide_eq_true_eq]
            exact ⟨h3, h4⟩
          exact hcnd this

/-- A loop that did not converge used all its fuel. -/
theorem trainLoop_not_converged (expQ logQ sqrtQ : ℚ → ℚ) (XWithBias : List (List ℚ))
    (y : List ℚ) (lr reg : ℚ) :
    ∀ (fuel : ℕ) (st : TrainState),
      (trainLoop expQ logQ sqrtQ XWithBias y lr reg fuel st).converged = false →
      (trainLoop expQ logQ sqrtQ XWithBias y lr reg fuel st).iterations =
        st.iterations + fuel := by
  intro fuel
  induction fuel with
  | zero => intro st _; rfl
  | succ fuel ih =>
    intro st hf
    simp only [trainLoop] at hf ⊢
    by_cases hcnd : (trainStepState expQ logQ sqrtQ XWithBias y lr reg st).converged = true
    · rw [if_pos hcnd] at hf
      rw [hcnd] at hf
      cases hf
    · rw [if_neg hcnd] at hf ⊢
      rw [ih _ hf, trainStepState_iterations]
      omega

/-- Claim C6, counterexample.  In a run whose weights never move (learning
rate 0) every pass has weight-delta norm 0 < 1e-4, so under the claim (the
check applying once a minimum of 5 iterations have run) training would
stop at iteration 6; the code stops at iteration 7, because its check
`iteration > 5` first fires in the 7th pass. -/
theorem C6_counterexample :
    c6Run.converged = true ∧ c6Run.iterations = 7 ∧
    specStopIteration (fun q => q) c6Run.deltaSqHistory 10 = 6 ∧ (7 : ℕ) ≠ 6 := by
  have hq : ((0 : ℚ) < 1/10000) = True := eq_true (by norm_num)
  refine ⟨?_, ?_, ?_, by decide⟩ <;>
    norm_num [c6Run, trainCore, trainLoop, trainStepState, trainStepWeights,
      trainStepDeltaSq, initTrainState, sumSqQ, idxMap, idxMapFrom,
      specStopIteration, hq, List.range_succ, List.filter, List.zip, List.zipWith]

/-- Claim C6, amended: training stops with `converged = true` exactly when
the norm of the weight delta of some pass falls below 1e-4 with the
pre-increment counter above 5 — i.e. from the 7th iteration on, not the
6th; when `maxIterations` is reached first the call still returns a usable
model — converged false, the full iteration count, and per-iteration cost
and delta histories — rather than raising an error (the training core is
total; only the upfront shape validation of `trainPredictionModel` can
reject an input). -/
theorem C6_convergence_rule (expQ logQ sqrtQ : ℚ → ℚ) (X : List (List ℚ))
    (y : List ℚ) (options : TrainOptions) :
    ((trainCore expQ logQ sqrtQ X y options).converged = true ↔
      ∃ i, i < (trainCore expQ logQ sqrtQ X y options).iterations ∧ 5 < i ∧
        sqrtQ ((trainCore expQ logQ sqrtQ X y options).deltaSqHistory.getD i 0) <
          1/10000) ∧
    ((trainCore expQ logQ sqrtQ X y options).converged = false →
      (trainCore expQ logQ sqrtQ X y options).iterations = options.maxIterations) ∧
    (trainCore expQ logQ sqrtQ X y options).iterations ≤ options.maxIterations ∧
    (trainCore expQ logQ sqrtQ X y options).deltaSqHistory.length =
      (trainCore expQ logQ sqrtQ X y options).iterations ∧
    (trainCore expQ logQ sqrtQ X y options).costHistory.length =
      (trainCore expQ logQ sqrtQ X y options).iterations ∧
    (trainCore expQ logQ sqrtQ X y options).weights.length =
      ((X.map (fun row => 1 :: row)).headD []).length := by
  have hshape := trainLoop_shape expQ logQ sqrtQ (X.map (fun row => 1 :: row)) y
    options.learningRate options.regularization options.maxIterations
    (initTrainState (((X.map (fun row => 1 :: row)).headD []).length)) rfl rfl
  have hiff := trainLoop_converged_iff expQ logQ sqrtQ (X.map (fun row => 1 :: row)) y
    options.learningRate options.regularization options.maxIterations
    (initTrainState (((X.map (fun row => 1 :: row)).headD []).length)) rfl rfl
  have hnc := trainLoop_not_converged expQ logQ sqrtQ (X.map (fun row => 1 :: row)) y
    options.learningRate options.regularization options.maxIterations
    (initTrainState (((X.map (fun row => 1 :: row)).headD []).length))
  obtain ⟨A, B, C, _, D2⟩ := hshape
  refine ⟨?_, ?_, ?_, A, B, ?_⟩
  · rw [show (trainCore expQ logQ sqrtQ X y options).converged =
      (trainLoop expQ logQ sqrtQ (X.map (fun row => 1 :: row)) y
        options.learningRate options.regularization options.maxIterations
        (initTrainState (((X.map (fun row => 1 :: row)).headD []).length))).converged
      from rfl]
    rw [hiff]
    constructor
    · rintro ⟨i, _, h2, h3, h4⟩; exact ⟨i, h2, h3, h4⟩
    · rintro ⟨i, h2, h3, h4⟩; exact ⟨i, Nat.zero_le i, h2, h3, h4⟩
  · intro hfalse
    have h := hnc hfalse
    have hz : (initTrainState (((X.map (fun row => 1 :: row)).headD []).length)).iterations +
        options.maxIterations = options.maxIterations := by
      simp [initTrainState]
    exact h.trans hz
  · have hz : (initTrainState (((X.map (fun row => 1 :: row)).headD []).length)).iterations +
        options.maxIterations = options.maxIterations := by
      simp [initTrainState]
    exact le_of_le_of_eq D2 hz
  · exact C.trans (by simp [initTrainState])

/-- Witness for `C6_convergence_rule`: the 3-iteration run does not
converge and reports exactly `maxIterations = 3` iterations. -/
theorem C6_convergence_rule_witness :
    c6ShortRun.iterations = 3 :=
  (C6_convergence_rule (fun _ => 1) (fun _ => 0) (fun q => q) [[1]] [1]
    { maxIterations := 3, learningRate := 0, regularization := 1/100 }).2.1
    (by norm_num [c6ShortRun, trainCore, trainLoop, trainStepState,
      trainStepWeights, trainStepDeltaSq, initTrainState, sumSqQ, idxMap,
      idxMapFrom, List.zip, List.zipWith])

/-! # Claim C7 -/

/-- Claim C7, counterexample.  With a sigmoid stub making the computed
probability exactly 0.7, the backend `predictWinRate` of part_009 reports
category `Medium`, not `high`: its thresholds are 0.75/0.25, not the
worker thresholds 0.7/0.4 the claim states. -/
theorem C7_counterexample :
    (backendPredictWinRate (fun _ => 3/7) [] c7Model).probability = 7/10 ∧
    ((7 : ℚ)/10 ≥ 7/10) ∧
    (backendPredictWinRate (fun _ => 3/7) [] c7Model).category = "Medium" ∧
    ("Medium" ≠ "high") := by
  refine ⟨?_, by norm_num, ?_, by decide⟩ <;>
    norm_num [backendPredictWinRate, backendModelPredict, sigmoidQ, dotQ,
      encodeDimValue, encodingLookup, c7Model, idxMap, idxMapFrom, Rec.getField,
      List.zip, List.zipWith, List.mergeSort]

/-- Claim C7, amended: the worker `predictWinRate` buckets its sigmoid
probability as `high` iff it is ≥ 0.7, `medium` iff it is in [0.4, 0.7),
and `low` iff below 0.4; the backend `predictWinRate` instead uses `High`
iff ≥ 0.75, `Low` iff < 0.25, and `Medium` otherwise. -/
theorem C7_category_thresholds (expQ : ℚ → ℚ) (model : WorkerModel)
    (features : List ℚ) (r : WorkerPrediction)
    (h : workerPredictWinRate expQ (some model) (some features) = .ok r) :
    ((r.category = "high" ↔ r.probability ≥ 7/10) ∧
     (r.category = "medium" ↔ r.probability ≥ 4/10 ∧ ¬(r.probability ≥ 7/10)) ∧
     (r.category = "low" ↔ ¬(r.probability ≥ 4/10))) ∧
    ∀ (opportunity : Rec) (bm : BackendModel),
      ((backendPredictWinRate expQ opportunity bm).category = "High" ↔
        (backendPredictWinRate expQ opportunity bm).probability ≥ 75/100) ∧
      ((backendPredictWinRate expQ opportunity bm).category = "Low" ↔
        ¬((backendPredictWinRate expQ opportunity bm).probability ≥ 75/100) ∧
        (backendPredictWinRate expQ opportunity bm).probability < 25/100) ∧
      ((backendPredictWinRate expQ opportunity bm).category = "Medium" ↔
        ¬((backendPredictWinRate expQ opportunity bm).probability ≥ 75/100) ∧
        ¬((backendPredictWinRate expQ opportunity bm).probability < 25/100)) := by
  constructor
  · simp only [workerPredictWinRate] at h
    by_cases hlen : (1 :: features).length ≠ model.weights.length
    · rw [if_pos hlen] at h
      cases h
    · rw [if_neg hlen] at h
      have hr := (Except.ok.injEq _ _).mp h.symm
      subst hr
      by_cases h7 : sigmoidQ expQ (dotQ (1 :: features) model.weights) ≥ 7/10
      · have h4 : sigmoidQ expQ (dotQ (1 :: features) model.weights) ≥ 4/10 :=
          le_trans (by norm_num) h7
        simp [h7, h4]
      · by_cases h4 : sigmoidQ expQ (dotQ (1 :: features) model.weights) ≥ 4/10
        · simp [h7, h4]
        · simp [h7, h4]
  · intro opportunity bm
    simp only [backendPredictWinRate]
    by_cases h75 : backendModelPredict expQ bm (fun dim => opportunity.getField dim) ≥ 75/100
    · have hn : ¬ backendModelPredict expQ bm (fun dim => opportunity.getField dim) < 25/100 := by
        intro hlt
        linarith
      simp [h75, hn]
    · by_cases h25 : backendModelPredict expQ bm (fun dim => opportunity.getField dim) < 25/100
      · simp [h75, h25]
      · simp [h75, h25]

/-- Witness for `C7_category_thresholds` at the concrete worker prediction
with probability exactly 0.7. -/
theorem C7_category_thresholds_witness :
    c7WorkerPred.category = "high" ↔ c7WorkerPred.probability ≥ 7/10 :=
  ((C7_category_thresholds (fun _ => 3/7) ⟨[1]⟩ [] c7WorkerPred
    (by norm_num [workerPredictWinRate, sigmoidQ, dotQ, featureContributionsOf,
      idxMap, idxMapFrom, c7WorkerPred, List.zip, List.zipWith,
      List.mergeSort])).1).1

/-! # Claim C8 -/

/-- Claim C8, counterexample.  Under the spec-modelled first-seen 0-based
encoding, `EMEA` has code 0; the `|| 0` fallback of the stored-model
`predict` closure maps the unseen value `LATAM` to 0 as well — the
"unknown" code is NOT distinct from the code of every seen category. -/
theorem C8_counterexample :
    buildEncodingForDim c8Records "Region" = [("EMEA", 0), ("APAC", 1)] ∧
    encodeDimValue c8EncInfo "Region" (JsValue.str "LATAM") = JsValue.num 0 ∧
    encodeDimValue c8EncInfo "Region" (JsValue.str "EMEA") = JsValue.num 0 := by
  refine ⟨?_, ?_, ?_⟩ <;>
    simp +decide [buildEncodingForDim, encodeDimValue, encodingLookup, c8EncInfo,
      c8Records, Rec.getField, JsValue.toKeyString, List.find?, List.filter]

/-- Claim C8, amended: when scoring a record with a persisted model, a
dimension without stored encoding information passes its value through
unchanged; with encoding information, a seen category maps to its stored
code and an unseen category maps to 0 via the `|| 0` fallback — a code that
coincides with the first seen category's code under the first-seen 0-based
encoding, not a reserved distinct code — and no case raises an error (the
encoding step is total). -/
theorem C8_unknown_category_code (enc : EncodingInfo) (dim : String) (v : JsValue) :
    (encodingLookup enc dim = none → encodeDimValue enc dim v = v) ∧
    (∀ m, encodingLookup enc dim = some m →
      (m.find? (fun kc => kc.1 = v.toKeyString) = none →
        encodeDimValue enc dim v = JsValue.num 0) ∧
      (∀ kc, m.find? (fun kc => kc.1 = v.toKeyString) = some kc →
        encodeDimValue enc dim v = JsValue.num kc.2)) := by
  refine ⟨?_, ?_⟩
  · intro hnone
    simp [encodeDimValue, hnone]
  · intro m hm
    constructor
    · intro hfind
      simp [encodeDimValue, hm, hfind]
    · intro kc hfind
      simp [encodeDimValue, hm, hfind]

/-- Witness for `C8_unknown_category_code`: the unseen `LATAM` maps to
code 0. -/
theorem C8_unknown_category_code_witness :
    encodeDimValue c8EncInfo "Region" (JsValue.str "LATAM") = JsValue.num 0 :=
  ((C8_unknown_category_code c8EncInfo "Region" (JsValue.str "LATAM")).2
    (buildEncodingForDim c8Records "Region") (by rfl)).1
    (by simp +decide [buildEncodingForDim, c8Records, Rec.getField,
      JsValue.toKeyString, List.find?, List.filter])

/-! # Claim C9 -/

/-- Claim C9: for every request handled by the regression worker, exactly
one response message is posted; it carries the request id, and it is
either a success message with a result and no error, or a failure message
with an error and no result — never both, never more than one. -/
theorem C9_worker_single_response (o : StatOracles) (action : String) (id : ℚ)
    (d : RegPayload) :
    (onRegressionMessage o action id d).length = 1 ∧
    ∀ m ∈ onRegressionMessage o action id d,
      m.id = id ∧
      (m.success = true → m.result.isSome ∧ m.error = none) ∧
      (m.success = false → m.result = none ∧ m.error.isSome) := by
  unfold onRegressionMessage
  cases dispatchRegAction o action d <;> simp

/-- Witness for `C9_worker_single_response`: the single failure response
for an unknown action. -/
theorem C9_worker_single_response_witness :
    c9Response.id = 5 ∧
    (c9Response.success = true → c9Response.result.isSome ∧ c9Response.error = none) ∧
    (c9Response.success = false → c9Response.result = none ∧ c9Response.error.isSome) :=
  (C9_worker_single_response c9Oracles "nope" 5 {}).2 c9Response
    (by simp [onRegressionMessage, dispatchRegAction, c9Oracles, c9Response,
      JsError.message])

/-! # Claim C10 -/

/-- Claim C10, counterexample.  With default options and no configured
default for dimension `a`, the record's null value stays `null` — it is
not replaced by 0 as the claim states. -/
theorem C10_counterexample :
    handleMissingValues c10Data {} = [[("a", JsValue.nullV)]] ∧
    (JsValue.nullV ≠ JsValue.num 0) := by
  constructor
  · rfl
  · decide

/-- Claim C10, amended: in the keep-records branch (default
configuration), `handleMissingValues` preserves the number of records and
every field name; a non-missing value is kept unchanged, and a
null/undefined value is replaced by the caller-configured default for that
key when one is configured, and by `null` — not 0 — otherwise. -/
theorem C10_missing_value_policy (data : List Rec) (dv : List (String × JsValue)) :
    (handleMissingValues data ⟨false, dv⟩).length = data.length ∧
    ∀ i j, i < data.length → j < (data.getD i []).length →
      (((handleMissingValues data ⟨false, dv⟩).getD i []).getD j ("", .undefV)).1 =
        ((data.getD i []).getD j ("", .undefV)).1 ∧
      (((data.getD i []).getD j ("", .undefV)).2 ≠ .nullV →
       ((data.getD i []).getD j ("", .undefV)).2 ≠ .undefV →
        (((handleMissingValues data ⟨false, dv⟩).getD i []).getD j ("", .undefV)).2 =
          ((data.getD i []).getD j ("", .undefV)).2) ∧
      ((((data.getD i []).getD j ("", .undefV)).2 = .nullV ∨
        ((data.getD i []).getD j ("", .undefV)).2 = .undefV) →
        (((handleMissingValues data ⟨false, dv⟩).getD i []).getD j ("", .undefV)).2 =
          (if defaultFor dv (((data.getD i []).getD j ("", .undefV)).1) ≠ .undefV then
            defaultFor dv (((data.getD i []).getD j ("", .undefV)).1)
          else .nullV)) := by
  constructor
  · simp [handleMissingValues]
  · intro i j hi hj
    have houter : (handleMissingValues data ⟨false, dv⟩).getD i [] =
        ((data.getD i [] : Rec).map (fun kv =>
          if kv.2 = .nullV ∨ kv.2 = .undefV then
            (kv.1,
              if defaultFor dv kv.1 ≠ .undefV then defaultFor dv kv.1 else .nullV)
          else kv)) := by
      show ((data.map _).getD i [] : Rec) = _
      exact getD_map_lt _ ([] : Rec) _ data i hi
    rw [houter, getD_map_lt _ (("", JsValue.undefV)) _ _ j hj]
    by_cases hmiss : (((data.getD i []).getD j ("", .undefV)).2 = JsValue.nullV ∨
        ((data.getD i []).getD j ("", .undefV)).2 = JsValue.undefV)
    · rw [if_pos hmiss]
      refine ⟨rfl, ?_, fun _ => rfl⟩
      intro h1 h2
      rcases hmiss with h | h
      · exact absurd h h1
      · exact absurd h h2
    · rw [if_neg hmiss]
      refine ⟨rfl, fun _ _ => rfl, ?_⟩
      intro h
      exact absurd h hmiss

/-- Witness for `C10_missing_value_policy`: the null value of the concrete
record stays null with no configured defaults. -/
theorem C10_missing_value_policy_witness :
    (((handleMissingValues c10Data ⟨false, []⟩).getD 0 []).getD 0 ("", .undefV)).2 =
      JsValue.nullV := by
  have h := ((C10_missing_value_policy c10Data []).2 0 0 (by decide)
    (by norm_num [c10Data])).2.2 (Or.inl (by norm_num [c10Data]))
  simpa [c10Data, defaultFor] using h

end WinRate
